import Mathlib

/-!
Shallow embedding of the billing routes of the commandcore repository:

* the Stripe webhook handler (apps/web/app/api/stripe/webhook/route.ts,
  in its fuller variant that checks the server configuration and reads the
  item-level period end),
* the Stripe checkout-session creation route
  (apps/web/app/api/stripe/checkout/route.ts),
* the subscription read endpoint (apps/web/app/api/subscription/route.ts),

together with the relevant rows of prisma/schema.prisma (User, Subscription).

Conventions of the embedding:

* JavaScript strings that may be null/undefined are Option String; the
  JS truthiness test "!x" on such a value is jsFalsy (none and the empty
  string are falsy).
* Timestamps (JS Date values) are Int milliseconds since the epoch;
  Date.now() is a parameter "now".
* The database is a pair of lists of rows.  Prisma upsert keyed by the
  unique stripeSubscriptionId column and updateMany are modelled directly
  on the list of Subscription rows.
* stripe.webhooks.constructEvent is an oracle parameter
  "verify : body -> signature -> secret -> Option StripeEvent"; none means
  signature verification threw.
* A database operation that throws is modelled by DbFaults flags; a throwing
  operation performs no partial write.  The source wraps only the checkout
  upsert in try/catch (the exception is logged and swallowed); the
  updateMany call is not wrapped, so its exception propagates out of the
  handler, modelled by the WebhookOutcome.thrown constructor.
-/

/-- JS truthiness test "!x" for a nullable string: null/undefined and the
empty string are falsy. -/
def jsFalsy : Option String → Bool
  | none => true
  | some s => decide (s = "")

/-- JS "v || fallback" for numbers: 0 is falsy. -/
def jsOr (v fallback : Int) : Int :=
  if v = 0 then fallback else v

/-- A row of the User table (prisma/schema.prisma, model User); only the
fields the billing routes read. email is nullable in the schema. -/
structure UserRow where
  id : String
  email : Option String
deriving Repr, DecidableEq

/-- A row of the Subscription table (prisma/schema.prisma, model
Subscription).  stripeSubscriptionId carries a @unique constraint. -/
structure SubRow where
  id : String
  userId : String
  plan : String
  status : String
  stripeCustomerId : String
  stripeSubscriptionId : String
  currentPeriodEnd : Int
  createdAt : Int
deriving Repr, DecidableEq

/-- The database state visible to the billing routes. -/
structure Db where
  users : List UserRow
  subscriptions : List SubRow
deriving Repr, DecidableEq

/-- Does some Subscription row carry this stripeSubscriptionId? -/
def hasSubId (l : List SubRow) (k : String) : Bool :=
  l.any (fun r => decide (r.stripeSubscriptionId = k))

/-- prisma.subscription.upsert keyed by the unique stripeSubscriptionId
column: if a row with the key exists it is updated in place, otherwise the
create record is appended. -/
def subscriptionUpsert (l : List SubRow) (k : String)
    (upd : SubRow → SubRow) (create : SubRow) : List SubRow :=
  if hasSubId l k then
    l.map (fun r => if r.stripeSubscriptionId = k then upd r else r)
  else
    l ++ [create]

/-- prisma.subscription.updateMany with a stripeSubscriptionId filter:
every matching row is updated, non-matching rows are untouched. -/
def subscriptionUpdateMany (l : List SubRow) (k : String)
    (upd : SubRow → SubRow) : List SubRow :=
  l.map (fun r => if r.stripeSubscriptionId = k then upd r else r)

/-- The fields of a Stripe.Checkout.Session the webhook handler reads. -/
structure CheckoutSession where
  customer : Option String
  customer_email : Option String
  subscription : Option String
  metadata_plan : Option String
  expires_at : Option Int
deriving Repr, DecidableEq

/-- The fields of a Stripe.Subscription the webhook handler reads;
items_first_current_period_end is items.data[0].current_period_end. -/
structure SubscriptionObject where
  id : String
  status : Option String
  items_first_current_period_end : Option Int
deriving Repr, DecidableEq

/-- The event kinds the webhook switch distinguishes. -/
inductive StripeEvent where
  | checkoutSessionCompleted (s : CheckoutSession)
  | customerSubscriptionUpdated (s : SubscriptionObject)
  | customerSubscriptionDeleted (s : SubscriptionObject)
  | other
deriving Repr, DecidableEq

/-- Whether the database throws on the given operation during this
request.  A throwing operation performs no write. -/
structure DbFaults where
  upsertThrows : Bool
  updateManyThrows : Bool
deriving Repr, DecidableEq

/-- Result of running the event switch: the database afterwards, and
whether an uncaught exception escaped the switch. -/
structure ProcResult where
  db : Db
  threw : Bool
deriving Repr, DecidableEq

/-- Update record of the checkout upsert: status "active", plan from the
event metadata, currentPeriodEnd from expires_at (Date.now() fallback). -/
def checkoutUpdateRow (plan : String) (cpe : Int) (r : SubRow) : SubRow :=
  { r with status := "active", plan := plan, currentPeriodEnd := cpe }

/-- Create record of the checkout upsert. -/
def checkoutCreateRow (freshId uid plan customerId subscriptionId : String)
    (cpe now : Int) : SubRow :=
  { id := freshId, userId := uid, plan := plan, status := "active",
    stripeCustomerId := customerId, stripeSubscriptionId := subscriptionId,
    currentPeriodEnd := cpe, createdAt := now }

/-- updateMany data for subscription updated/deleted events: status from
the event ("unknown" fallback), currentPeriodEnd from the first item's
current_period_end (0, the epoch, as fallback). -/
def subEventUpdateRow (sub : SubscriptionObject) (r : SubRow) : SubRow :=
  { r with status := sub.status.getD "unknown",
           currentPeriodEnd := (sub.items_first_current_period_end.getD 0) * 1000 }

/-- The event switch of the webhook handler.  freshId is the cuid the
database would generate for a created row, now is Date.now() in ms. -/
def processEvent (e : StripeEvent) (db : Db) (faults : DbFaults)
    (now : Int) (freshId : String) : ProcResult :=
  match e with
  | .checkoutSessionCompleted s =>
      if jsFalsy s.customer || jsFalsy s.customer_email then ⟨db, false⟩
      else
        match db.users.find? (fun u => u.email == s.customer_email) with
        | none => ⟨db, false⟩
        | some user =>
            let subscriptionId := s.subscription.getD ""
            let plan := s.metadata_plan.getD "pro"
            let cpe := jsOr ((s.expires_at.getD 0) * 1000) now
            if faults.upsertThrows then ⟨db, false⟩
            else
              ⟨{ users := db.users,
                 subscriptions :=
                   subscriptionUpsert db.subscriptions subscriptionId
                     (checkoutUpdateRow plan cpe)
                     (checkoutCreateRow freshId user.id plan
                       (s.customer.getD "") subscriptionId cpe now) },
               false⟩
  | .customerSubscriptionUpdated sub
  | .customerSubscriptionDeleted sub =>
      if faults.updateManyThrows then ⟨db, true⟩
      else
        ⟨{ users := db.users,
           subscriptions :=
             subscriptionUpdateMany db.subscriptions sub.id
               (subEventUpdateRow sub) },
         false⟩
  | .other => ⟨db, false⟩

/-- The two environment variables the webhook route reads. -/
structure WebhookEnv where
  stripeSecretKey : Option String
  stripeWebhookSecret : Option String
deriving Repr, DecidableEq

/-- A webhook request: the stripe-signature header and the raw body. -/
structure WebhookRequest where
  signatureHeader : Option String
  body : String
deriving Repr, DecidableEq

/-- The four response shapes of the webhook route. -/
inductive WebhookResponse where
  | ok
  | serverMisconfig
  | missingSignature
  | webhookError
deriving Repr, DecidableEq

/-- HTTP status of each webhook response. -/
def WebhookResponse.statusCode : WebhookResponse → Nat
  | .ok => 200
  | .serverMisconfig => 500
  | .missingSignature => 400
  | .webhookError => 400

/-- Outcome of the POST handler: a response together with the database
afterwards, or an uncaught exception (no response from the handler). -/
inductive WebhookOutcome where
  | response (r : WebhookResponse) (db : Db)
  | thrown (db : Db)
deriving Repr, DecidableEq

/-- The HTTP status of the outcome, none when an exception escaped. -/
def WebhookOutcome.statusCode? : WebhookOutcome → Option Nat
  | .response r _ => some r.statusCode
  | .thrown _ => none

/-- Did the handler acknowledge success (HTTP 200)? -/
def WebhookOutcome.isOk : WebhookOutcome → Bool
  | .response .ok _ => true
  | _ => false

/-- The webhook POST handler: config check (500), signature header check
(400), constructEvent (400 on failure), then the event switch, then the
success acknowledgment. -/
def webhookPOST (env : WebhookEnv)
    (verify : String → String → String → Option StripeEvent)
    (req : WebhookRequest) (db : Db) (faults : DbFaults)
    (now : Int) (freshId : String) : WebhookOutcome :=
  if jsFalsy env.stripeSecretKey || jsFalsy env.stripeWebhookSecret then
    .response .serverMisconfig db
  else if jsFalsy req.signatureHeader then
    .response .missingSignature db
  else
    match verify req.body (req.signatureHeader.getD "")
        (env.stripeWebhookSecret.getD "") with
    | none => .response .webhookError db
    | some event =>
        let r := processEvent event db faults now freshId
        if r.threw then .thrown r.db else .response .ok r.db

/-- The environment variables the checkout route reads. -/
structure CheckoutEnv where
  stripeSecretKey : Option String
  stripePricePro : Option String
  stripePriceEnterprise : Option String
deriving Repr, DecidableEq

/-- The property names every plain JS object literal inherits from
Object.prototype.  Reading priceMap[plan] for one of these does not give
undefined: it yields the inherited member — a function, or for __proto__
the prototype object — and such a value is truthy in JS. -/
def objectPrototypeKeys : List String :=
  ["constructor", "hasOwnProperty", "isPrototypeOf",
   "propertyIsEnumerable", "toLocaleString", "toString", "valueOf",
   "__proto__", "__defineGetter__", "__defineSetter__",
   "__lookupGetter__", "__lookupSetter__"]

/-- Result of the JS property read priceMap[plan]: an own property whose
value is an env var (string or undefined), a truthy member inherited from
Object.prototype, or undefined for every other key. -/
inductive JsLookup where
  | ownStr (v : Option String)
  | inherited
  | absent
deriving Repr, DecidableEq

/-- JS truthiness test "!priceId" on the lookup result: undefined and the
empty string are falsy, inherited Object.prototype members (functions,
the prototype object) are truthy. -/
def jsFalsyLookup : JsLookup → Bool
  | .ownStr v => jsFalsy v
  | .inherited => false
  | .absent => true

/-- The static plan-to-price mapping of the checkout route
(const priceMap = pro / enterprise, each bound to an env var), as the
runtime object lookup priceMap[plan] behaves: the two own keys give the
env values, Object.prototype keys give truthy inherited members, and any
other key gives undefined. -/
def priceMap (env : CheckoutEnv) (plan : String) : JsLookup :=
  if plan = "pro" then .ownStr env.stripePricePro
  else if plan = "enterprise" then .ownStr env.stripePriceEnterprise
  else if plan ∈ objectPrototypeKeys then .inherited
  else .absent

/-- Responses of the checkout route: 500 misconfiguration, 400 invalid
plan, 200 with the hosted checkout URL, or 500 with the provider error. -/
inductive CheckoutResponse where
  | misconfig
  | invalidPlan
  | url (u : Option String)
  | stripeError (msg : String)
deriving Repr, DecidableEq

/-- HTTP status of each checkout response. -/
def CheckoutResponse.statusCode : CheckoutResponse → Nat
  | .misconfig => 500
  | .invalidPlan => 400
  | .url _ => 200
  | .stripeError _ => 500

/-- The checkout POST handler.  stripeCreate is the external
stripe.checkout.sessions.create call, an oracle returning the session URL
or the thrown error message; the returned Bool records whether that
external call was performed. -/
def checkoutPOST (env : CheckoutEnv) (plan : String)
    (stripeCreate : Except String (Option String)) :
    CheckoutResponse × Bool :=
  if jsFalsy env.stripeSecretKey then (.misconfig, false)
  else if jsFalsyLookup (priceMap env plan) then (.invalidPlan, false)
  else
    match stripeCreate with
    | .ok u => (.url u, true)
    | .error msg => (.stripeError msg, true)

/-- Responses of the subscription read endpoint: 401 without a session
email, otherwise the subscription fields or the free/none fallback. -/
inductive SubReadResponse where
  | unauthorized
  | freeNone
  | subInfo (plan status : String) (currentPeriodEnd : Int)
deriving Repr, DecidableEq

/-- The findFirst filter of the subscription read endpoint: the related
user's email equals the session email and the status is active or
trialing. -/
def activeSubFor (db : Db) (email : Option String) (r : SubRow) : Bool :=
  (db.users.find? (fun u => u.id == r.userId)).any (fun u => u.email == email)
    && (r.status == "active" || r.status == "trialing")

/-- The subscription GET handler: 401 when the session has no email,
otherwise findFirst over active/trialing subscriptions of that user,
falling back to plan free / status none. -/
def subscriptionGET (sessionEmail : Option String) (db : Db) :
    SubReadResponse :=
  if jsFalsy sessionEmail then .unauthorized
  else
    match db.subscriptions.find? (activeSubFor db sessionEmail) with
    | none => .freeNone
    | some r => .subInfo r.plan r.status r.currentPeriodEnd

/-- Number of Subscription rows carrying a given stripeSubscriptionId. -/
def subCount (l : List SubRow) (k : String) : Nat :=
  (l.filter (fun r => decide (r.stripeSubscriptionId = k))).length

/-- The @unique constraint of the schema on stripeSubscriptionId: no two
Subscription rows share that key. -/
def uniqueSubIds (db : Db) : Prop :=
  db.subscriptions.Pairwise (fun a b => a.stripeSubscriptionId ≠ b.stripeSubscriptionId)

instance (db : Db) : Decidable (uniqueSubIds db) := by
  unfold uniqueSubIds
  infer_instance

lemma subCount_nil (k : String) : subCount [] k = 0 := rfl

lemma subCount_cons (a : SubRow) (t : List SubRow) (k : String) :
    subCount (a :: t) k =
      (if a.stripeSubscriptionId = k then 1 else 0) + subCount t k := by
  by_cases h : a.stripeSubscriptionId = k <;>
    simp [subCount, List.filter_cons, h, Nat.add_comm]

lemma subCount_append (l l' : List SubRow) (k : String) :
    subCount (l ++ l') k = subCount l k + subCount l' k := by
  simp [subCount, List.filter_append]

lemma subCount_eq_zero_of_hasSubId_false (l : List SubRow) (k : String)
    (h : hasSubId l k = false) : subCount l k = 0 := by
  induction l with
  | nil => rfl
  | cons a t ih =>
      simp only [hasSubId, List.any_cons, Bool.or_eq_false_iff] at h
      obtain ⟨ha, ht⟩ := h
      rw [subCount_cons, if_neg (by simpa using ha), ih ht]

lemma subCount_map_keyPreserving (l : List SubRow) (k : String)
    (g : SubRow → SubRow)
    (hg : ∀ r, (g r).stripeSubscriptionId = r.stripeSubscriptionId) :
    subCount (l.map g) k = subCount l k := by
  induction l with
  | nil => rfl
  | cons a t ih =>
      rw [List.map_cons, subCount_cons, subCount_cons, hg a, ih]

lemma hasSubId_map_keyPreserving (l : List SubRow) (k : String)
    (g : SubRow → SubRow)
    (hg : ∀ r, (g r).stripeSubscriptionId = r.stripeSubscriptionId) :
    hasSubId (l.map g) k = hasSubId l k := by
  induction l with
  | nil => rfl
  | cons a t ih =>
      simp only [hasSubId, List.map_cons, List.any_cons, hg a] at *
      rw [ih]

lemma subCount_le_one_of_pairwise (l : List SubRow) (k : String)
    (h : l.Pairwise fun a b => a.stripeSubscriptionId ≠ b.stripeSubscriptionId) :
    subCount l k ≤ 1 := by
  induction l with
  | nil => exact Nat.zero_le 1
  | cons a t ih =>
      rw [List.pairwise_cons] at h
      obtain ⟨ha, ht⟩ := h
      rw [subCount_cons]
      by_cases hk : a.stripeSubscriptionId = k
      · have h0 : hasSubId t k = false := by
          simp only [hasSubId, List.any_eq_false, decide_eq_true_eq]
          intro r hr hrk
          exact ha r hr (hk.trans hrk.symm)
        rw [if_pos hk, subCount_eq_zero_of_hasSubId_false t k h0]
      · rw [if_neg hk, Nat.zero_add]
        exact ih ht

lemma hasSubId_upsert (l : List SubRow) (k : String)
    (upd : SubRow → SubRow) (create : SubRow)
    (hu : ∀ r, (upd r).stripeSubscriptionId = r.stripeSubscriptionId)
    (hc : create.stripeSubscriptionId = k) :
    hasSubId (subscriptionUpsert l k upd create) k = true := by
  unfold subscriptionUpsert
  by_cases h : hasSubId l k
  · rw [if_pos h]
    rw [hasSubId_map_keyPreserving]
    · exact h
    · intro r
      by_cases hr : r.stripeSubscriptionId = k
      · rw [if_pos hr, hu]
      · rw [if_neg hr]
  · rw [if_neg h]
    simp [hasSubId, List.any_append, hc]

lemma length_upsert_of_hasSubId (l : List SubRow) (k : String)
    (upd : SubRow → SubRow) (create : SubRow)
    (h : hasSubId l k = true) :
    (subscriptionUpsert l k upd create).length = l.length := by
  unfold subscriptionUpsert
  rw [if_pos h, List.length_map]

lemma subCount_upsert_le_one (l : List SubRow) (k : String)
    (upd : SubRow → SubRow) (create : SubRow)
    (hu : ∀ r, (upd r).stripeSubscriptionId = r.stripeSubscriptionId)
    (hc : create.stripeSubscriptionId = k)
    (h : subCount l k ≤ 1) :
    subCount (subscriptionUpsert l k upd create) k ≤ 1 := by
  unfold subscriptionUpsert
  by_cases hh : hasSubId l k
  · rw [if_pos hh]
    rw [subCount_map_keyPreserving]
    · exact h
    · intro r
      by_cases hr : r.stripeSubscriptionId = k
      · rw [if_pos hr, hu]
      · rw [if_neg hr]
  · rw [if_neg hh, subCount_append,
        subCount_eq_zero_of_hasSubId_false l k (by simpa using hh),
        subCount_cons, subCount_nil, if_pos hc]

lemma checkoutUpdateRow_keeps_key (plan : String) (cpe : Int) (r : SubRow) :
    (checkoutUpdateRow plan cpe r).stripeSubscriptionId =
      r.stripeSubscriptionId := rfl

lemma checkoutCreateRow_key (freshId uid plan customerId subscriptionId : String)
    (cpe now : Int) :
    (checkoutCreateRow freshId uid plan customerId subscriptionId
        cpe now).stripeSubscriptionId = subscriptionId := rfl

lemma processEvent_checkout_noop (s : CheckoutSession) (db : Db)
    (faults : DbFaults) (now : Int) (freshId : String)
    (h : (jsFalsy s.customer || jsFalsy s.customer_email) = true) :
    processEvent (.checkoutSessionCompleted s) db faults now freshId =
      ⟨db, false⟩ := by
  simp [processEvent, h]

lemma processEvent_checkout_nouser (s : CheckoutSession) (db : Db)
    (faults : DbFaults) (now : Int) (freshId : String)
    (h1 : (jsFalsy s.customer || jsFalsy s.customer_email) = false)
    (h2 : db.users.find? (fun u => u.email == s.customer_email) = none) :
    processEvent (.checkoutSessionCompleted s) db faults now freshId =
      ⟨db, false⟩ := by
  simp [processEvent, h1, h2]

lemma processEvent_checkout_fault (s : CheckoutSession) (db : Db)
    (faults : DbFaults) (now : Int) (freshId : String) (u : UserRow)
    (h1 : (jsFalsy s.customer || jsFalsy s.customer_email) = false)
    (h2 : db.users.find? (fun x => x.email == s.customer_email) = some u)
    (h3 : faults.upsertThrows = true) :
    processEvent (.checkoutSessionCompleted s) db faults now freshId =
      ⟨db, false⟩ := by
  simp [processEvent, h1, h2, h3]

lemma processEvent_checkout_upsert (s : CheckoutSession) (db : Db)
    (faults : DbFaults) (now : Int) (freshId : String) (u : UserRow)
    (h1 : (jsFalsy s.customer || jsFalsy s.customer_email) = false)
    (h2 : db.users.find? (fun x => x.email == s.customer_email) = some u)
    (h3 : faults.upsertThrows = false) :
    processEvent (.checkoutSessionCompleted s) db faults now freshId =
      ⟨{ users := db.users,
         subscriptions :=
           subscriptionUpsert db.subscriptions (s.subscription.getD "")
             (checkoutUpdateRow (s.metadata_plan.getD "pro")
               (jsOr ((s.expires_at.getD 0) * 1000) now))
             (checkoutCreateRow freshId u.id (s.metadata_plan.getD "pro")
               (s.customer.getD "") (s.subscription.getD "")
               (jsOr ((s.expires_at.getD 0) * 1000) now) now) },
       false⟩ := by
  simp [processEvent, h1, h2, h3]

lemma processEvent_checkout_noop_db (s : CheckoutSession) (db : Db)
    (faults : DbFaults) (now : Int) (freshId : String)
    (h : (jsFalsy s.customer || jsFalsy s.customer_email) = true) :
    (processEvent (.checkoutSessionCompleted s) db faults now freshId).db =
      db := by
  rw [processEvent_checkout_noop s db faults now freshId h]

lemma processEvent_checkout_nouser_db (s : CheckoutSession) (db : Db)
    (faults : DbFaults) (now : Int) (freshId : String)
    (h1 : (jsFalsy s.customer || jsFalsy s.customer_email) = false)
    (h2 : db.users.find? (fun u => u.email == s.customer_email) = none) :
    (processEvent (.checkoutSessionCompleted s) db faults now freshId).db =
      db := by
  rw [processEvent_checkout_nouser s db faults now freshId h1 h2]

lemma processEvent_checkout_fault_db (s : CheckoutSession) (db : Db)
    (faults : DbFaults) (now : Int) (freshId : String) (u : UserRow)
    (h1 : (jsFalsy s.customer || jsFalsy s.customer_email) = false)
    (h2 : db.users.find? (fun x => x.email == s.customer_email) = some u)
    (h3 : faults.upsertThrows = true) :
    (processEvent (.checkoutSessionCompleted s) db faults now freshId).db =
      db := by
  rw [processEvent_checkout_fault s db faults now freshId u h1 h2 h3]

lemma processEvent_checkout_upsert_db (s : CheckoutSession) (db : Db)
    (faults : DbFaults) (now : Int) (freshId : String) (u : UserRow)
    (h1 : (jsFalsy s.customer || jsFalsy s.customer_email) = false)
    (h2 : db.users.find? (fun x => x.email == s.customer_email) = some u)
    (h3 : faults.upsertThrows = false) :
    (processEvent (.checkoutSessionCompleted s) db faults now freshId).db =
      { users := db.users,
        subscriptions :=
          subscriptionUpsert db.subscriptions (s.subscription.getD "")
            (checkoutUpdateRow (s.metadata_plan.getD "pro")
              (jsOr ((s.expires_at.getD 0) * 1000) now))
            (checkoutCreateRow freshId u.id (s.metadata_plan.getD "pro")
              (s.customer.getD "") (s.subscription.getD "")
              (jsOr ((s.expires_at.getD 0) * 1000) now) now) } := by
  rw [processEvent_checkout_upsert s db faults now freshId u h1 h2 h3]

lemma processEvent_checkout_threw (s : CheckoutSession) (db : Db)
    (faults : DbFaults) (now : Int) (freshId : String) :
    (processEvent (.checkoutSessionCompleted s) db faults now
      freshId).threw = false := by
  by_cases h1 : (jsFalsy s.customer || jsFalsy s.customer_email) = true
  · rw [processEvent_checkout_noop s db faults now freshId h1]
  · rw [Bool.not_eq_true] at h1
    cases h2 : db.users.find? (fun x => x.email == s.customer_email) with
    | none => rw [processEvent_checkout_nouser s db faults now freshId h1 h2]
    | some u =>
        cases h3 : faults.upsertThrows with
        | true =>
            rw [processEvent_checkout_fault s db faults now freshId u h1 h2 h3]
        | false =>
            rw [processEvent_checkout_upsert s db faults now freshId u h1 h2 h3]

lemma processEvent_subEvent (sub : SubscriptionObject) (db : Db)
    (faults : DbFaults) (now : Int) (freshId : String)
    (e : StripeEvent)
    (he : e = .customerSubscriptionUpdated sub ∨
          e = .customerSubscriptionDeleted sub)
    (hf : faults.updateManyThrows = false) :
    processEvent e db faults now freshId =
      ⟨{ users := db.users,
         subscriptions :=
           subscriptionUpdateMany db.subscriptions sub.id
             (subEventUpdateRow sub) },
       false⟩ := by
  cases he with
  | inl h => rw [h]; simp [processEvent, hf]
  | inr h => rw [h]; simp [processEvent, hf]

lemma processEvent_subEvent_thrown (sub : SubscriptionObject) (db : Db)
    (faults : DbFaults) (now : Int) (freshId : String)
    (e : StripeEvent)
    (he : e = .customerSubscriptionUpdated sub ∨
          e = .customerSubscriptionDeleted sub)
    (hf : faults.updateManyThrows = true) :
    processEvent e db faults now freshId = ⟨db, true⟩ := by
  cases he with
  | inl h => rw [h]; simp [processEvent, hf]
  | inr h => rw [h]; simp [processEvent, hf]

lemma processEvent_threw_of_noUpdateManyFault (e : StripeEvent) (db : Db)
    (faults : DbFaults) (now : Int) (freshId : String)
    (hf : faults.updateManyThrows = false) :
    (processEvent e db faults now freshId).threw = false := by
  cases e with
  | checkoutSessionCompleted s => exact processEvent_checkout_threw s db faults now freshId
  | customerSubscriptionUpdated sub =>
      rw [processEvent_subEvent sub db faults now freshId _ (Or.inl rfl) hf]
  | customerSubscriptionDeleted sub =>
      rw [processEvent_subEvent sub db faults now freshId _ (Or.inr rfl) hf]
  | other => rfl

lemma webhookPOST_eq_ok (env : WebhookEnv)
    (verify : String → String → String → Option StripeEvent)
    (req : WebhookRequest) (db : Db) (faults : DbFaults)
    (now : Int) (freshId : String) (e : StripeEvent)
    (henv : (jsFalsy env.stripeSecretKey ||
             jsFalsy env.stripeWebhookSecret) = false)
    (hsig : jsFalsy req.signatureHeader = false)
    (hver : verify req.body (req.signatureHeader.getD "")
        (env.stripeWebhookSecret.getD "") = some e)
    (hthrew : (processEvent e db faults now freshId).threw = false) :
    webhookPOST env verify req db faults now freshId =
      .response .ok (processEvent e db faults now freshId).db := by
  simp [webhookPOST, henv, hsig, hver, hthrew]

lemma updateMany_no_match (l : List SubRow) (k : String)
    (upd : SubRow → SubRow)
    (h : ∀ r ∈ l, r.stripeSubscriptionId ≠ k) :
    subscriptionUpdateMany l k upd = l := by
  induction l with
  | nil => rfl
  | cons a t ih =>
      simp only [subscriptionUpdateMany, List.map_cons]
      rw [if_neg (h a (List.mem_cons_self a t))]
      have ht : subscriptionUpdateMany t k upd = t :=
        ih (fun r hr => h r (List.mem_cons_of_mem a hr))
      simp only [subscriptionUpdateMany] at ht
      rw [ht]

/-- Fixed concrete environment used by the witnesses: both secrets set. -/
def cfgOk : WebhookEnv := ⟨some "sk", some "ws"⟩

/-- Fixed concrete request used by the witnesses: signature header set. -/
def sigReq : WebhookRequest := ⟨some "sig", "body"⟩

/-- No database faults. -/
def noFaults : DbFaults := ⟨false, false⟩

/-- C2: once the configuration is present, a request whose signature
header is missing, or whose signature verification fails, yields a 400
error response and leaves the database untouched. -/
theorem invalid_signature_no_mutation (env : WebhookEnv)
    (verify : String → String → String → Option StripeEvent)
    (req : WebhookRequest) (db : Db) (faults : DbFaults)
    (now : Int) (freshId : String)
    (henv : (jsFalsy env.stripeSecretKey ||
             jsFalsy env.stripeWebhookSecret) = false)
    (hbad : jsFalsy req.signatureHeader = true ∨
            verify req.body (req.signatureHeader.getD "")
              (env.stripeWebhookSecret.getD "") = none) :
    (webhookPOST env verify req db faults now freshId =
        .response .missingSignature db ∨
     webhookPOST env verify req db faults now freshId =
        .response .webhookError db) ∧
    (webhookPOST env verify req db faults now freshId).statusCode? =
      some 400 := by
  by_cases hs : jsFalsy req.signatureHeader = true
  · have h : webhookPOST env verify req db faults now freshId =
        .response .missingSignature db := by
      simp [webhookPOST, henv, hs]
    exact ⟨Or.inl h, by rw [h]; rfl⟩
  · rw [Bool.not_eq_true] at hs
    have hv : verify req.body (req.signatureHeader.getD "")
        (env.stripeWebhookSecret.getD "") = none := by
      cases hbad with
      | inl h => exact absurd h (by rw [hs]; exact Bool.false_ne_true)
      | inr h => exact h
    have h : webhookPOST env verify req db faults now freshId =
        .response .webhookError db := by
      simp [webhookPOST, henv, hs, hv]
    exact ⟨Or.inr h, by rw [h]; rfl⟩

/-- Witness for invalid_signature_no_mutation at a concrete input. -/
theorem invalid_signature_no_mutation_witness :
    ((jsFalsy cfgOk.stripeSecretKey ||
      jsFalsy cfgOk.stripeWebhookSecret) = false) ∧
    ((webhookPOST cfgOk (fun _ _ _ => none) sigReq ⟨[], []⟩ noFaults 0 "i" =
        .response .missingSignature ⟨[], []⟩ ∨
      webhookPOST cfgOk (fun _ _ _ => none) sigReq ⟨[], []⟩ noFaults 0 "i" =
        .response .webhookError ⟨[], []⟩) ∧
     (webhookPOST cfgOk (fun _ _ _ => none) sigReq ⟨[], []⟩ noFaults 0
        "i").statusCode? = some 400) :=
  ⟨by decide,
   invalid_signature_no_mutation cfgOk (fun _ _ _ => none) sigReq ⟨[], []⟩
     noFaults 0 "i" (by decide) (Or.inr rfl)⟩

/-- C7: the webhook endpoint's status is exactly 500 when the
configuration is missing, 400 when the configuration is present but the
signature header is missing or verification fails, and 200 (the JSON
acknowledgment) otherwise, provided no database exception escapes the
updateMany call. -/
theorem webhook_status_codes (env : WebhookEnv)
    (verify : String → String → String → Option StripeEvent)
    (req : WebhookRequest) (db : Db) (faults : DbFaults)
    (now : Int) (freshId : String)
    (hf : faults.updateManyThrows = false) :
    ((webhookPOST env verify req db faults now freshId).statusCode? =
        some 500 ↔
      (jsFalsy env.stripeSecretKey ||
       jsFalsy env.stripeWebhookSecret) = true) ∧
    ((webhookPOST env verify req db faults now freshId).statusCode? =
        some 400 ↔
      ((jsFalsy env.stripeSecretKey ||
        jsFalsy env.stripeWebhookSecret) = false ∧
       (jsFalsy req.signatureHeader = true ∨
        verify req.body (req.signatureHeader.getD "")
          (env.stripeWebhookSecret.getD "") = none))) ∧
    ((webhookPOST env verify req db faults now freshId).statusCode? =
        some 200 ↔
      ((jsFalsy env.stripeSecretKey ||
        jsFalsy env.stripeWebhookSecret) = false ∧
       jsFalsy req.signatureHeader = false ∧
       (verify req.body (req.signatureHeader.getD "")
         (env.stripeWebhookSecret.getD "")).isSome = true)) := by
  by_cases henv : (jsFalsy env.stripeSecretKey ||
      jsFalsy env.stripeWebhookSecret) = true
  · have h : webhookPOST env verify req db faults now freshId =
        .response .serverMisconfig db := by
      simp [webhookPOST, henv]
    rw [h]
    simp [WebhookOutcome.statusCode?, WebhookResponse.statusCode, henv]
  · rw [Bool.not_eq_true] at henv
    by_cases hs : jsFalsy req.signatureHeader = true
    · have h : webhookPOST env verify req db faults now freshId =
          .response .missingSignature db := by
        simp [webhookPOST, henv, hs]
      rw [h]
      simp [WebhookOutcome.statusCode?, WebhookResponse.statusCode, henv, hs]
    · rw [Bool.not_eq_true] at hs
      cases hv : verify req.body (req.signatureHeader.getD "")
          (env.stripeWebhookSecret.getD "") with
      | none =>
          have h : webhookPOST env verify req db faults now freshId =
              .response .webhookError db := by
            simp [webhookPOST, henv, hs, hv]
          rw [h]
          simp [WebhookOutcome.statusCode?, WebhookResponse.statusCode,
            henv, hs, hv]
      | some e =>
          have h : webhookPOST env verify req db faults now freshId =
              .response .ok (processEvent e db faults now freshId).db :=
            webhookPOST_eq_ok env verify req db faults now freshId e henv hs
              hv (processEvent_threw_of_noUpdateManyFault e db faults now
                freshId hf)
          rw [h]
          simp [WebhookOutcome.statusCode?, WebhookResponse.statusCode,
            henv, hs, hv]

/-- Witness for webhook_status_codes at a concrete input. -/
theorem webhook_status_codes_witness :
    (noFaults.updateManyThrows = false) ∧
    ((webhookPOST cfgOk (fun _ _ _ => some .other) sigReq ⟨[], []⟩ noFaults
        0 "i").statusCode? = some 500 ↔
      (jsFalsy cfgOk.stripeSecretKey ||
       jsFalsy cfgOk.stripeWebhookSecret) = true) ∧
    ((webhookPOST cfgOk (fun _ _ _ => some .other) sigReq ⟨[], []⟩ noFaults
        0 "i").statusCode? = some 400 ↔
      ((jsFalsy cfgOk.stripeSecretKey ||
        jsFalsy cfgOk.stripeWebhookSecret) = false ∧
       (jsFalsy sigReq.signatureHeader = true ∨
        (fun _ _ _ => some StripeEvent.other) sigReq.body
          (sigReq.signatureHeader.getD "")
          (cfgOk.stripeWebhookSecret.getD "") = none))) ∧
    ((webhookPOST cfgOk (fun _ _ _ => some .other) sigReq ⟨[], []⟩ noFaults
        0 "i").statusCode? = some 200 ↔
      ((jsFalsy cfgOk.stripeSecretKey ||
        jsFalsy cfgOk.stripeWebhookSecret) = false ∧
       jsFalsy sigReq.signatureHeader = false ∧
       ((fun _ _ _ => some StripeEvent.other) sigReq.body
         (sigReq.signatureHeader.getD "")
         (cfgOk.stripeWebhookSecret.getD "")).isSome = true)) :=
  ⟨by decide,
   webhook_status_codes cfgOk (fun _ _ _ => some .other) sigReq ⟨[], []⟩
     noFaults 0 "i" (by decide)⟩

/-- C5: an authenticated subscription updated/deleted event updates
exactly the rows whose stripeSubscriptionId equals the event's id,
setting status (fallback "unknown") and the item-level period end
(fallback 0, the epoch); rows with another id are untouched, no row is
created or removed, and with no matching row the database is unchanged
while the handler still answers 200. -/
theorem subscription_update_events (env : WebhookEnv)
    (verify : String → String → String → Option StripeEvent)
    (req : WebhookRequest) (db : Db) (faults : DbFaults)
    (now : Int) (freshId : String) (sub : SubscriptionObject)
    (e : StripeEvent) (db' : Db)
    (he : e = .customerSubscriptionUpdated sub ∨
          e = .customerSubscriptionDeleted sub)
    (henv : (jsFalsy env.stripeSecretKey ||
             jsFalsy env.stripeWebhookSecret) = false)
    (hsig : jsFalsy req.signatureHeader = false)
    (hver : verify req.body (req.signatureHeader.getD "")
        (env.stripeWebhookSecret.getD "") = some e)
    (hf : faults.updateManyThrows = false)
    (h : webhookPOST env verify req db faults now freshId =
        .response .ok db') :
    db'.users = db.users ∧
    db'.subscriptions.length = db.subscriptions.length ∧
    (∀ r ∈ db.subscriptions, r.stripeSubscriptionId ≠ sub.id →
      r ∈ db'.subscriptions) ∧
    (∀ r ∈ db.subscriptions, r.stripeSubscriptionId = sub.id →
      { r with status := sub.status.getD "unknown",
               currentPeriodEnd :=
                 (sub.items_first_current_period_end.getD 0) * 1000 } ∈
        db'.subscriptions) ∧
    (∀ q ∈ db'.subscriptions,
      (q ∈ db.subscriptions ∧ q.stripeSubscriptionId ≠ sub.id) ∨
      (∃ r ∈ db.subscriptions, r.stripeSubscriptionId = sub.id ∧
        q = { r with status := sub.status.getD "unknown",
                     currentPeriodEnd :=
                       (sub.items_first_current_period_end.getD 0) * 1000 })) ∧
    ((∀ r ∈ db.subscriptions, r.stripeSubscriptionId ≠ sub.id) →
      db' = db) := by
  have hp := processEvent_subEvent sub db faults now freshId e he hf
  have hw := webhookPOST_eq_ok env verify req db faults now freshId e henv
    hsig hver (by rw [hp])
  rw [hw, hp] at h
  have hdb : db' =
      { users := db.users,
        subscriptions := subscriptionUpdateMany db.subscriptions sub.id
          (subEventUpdateRow sub) } := by
    injection h with h1 h2
    exact h2.symm
  subst hdb
  refine ⟨rfl, ?_, ?_, ?_, ?_, ?_⟩
  · show (subscriptionUpdateMany db.subscriptions sub.id
        (subEventUpdateRow sub)).length = db.subscriptions.length
    simp [subscriptionUpdateMany]
  · intro r hrmem hrne
    show r ∈ subscriptionUpdateMany db.subscriptions sub.id
      (subEventUpdateRow sub)
    exact List.mem_map.mpr ⟨r, hrmem, if_neg hrne⟩
  · intro r hrmem hrk
    show _ ∈ subscriptionUpdateMany db.subscriptions sub.id
      (subEventUpdateRow sub)
    exact List.mem_map.mpr ⟨r, hrmem, if_pos hrk⟩
  · intro q hq
    have hq' : q ∈ List.map
        (fun x => if x.stripeSubscriptionId = sub.id then
          subEventUpdateRow sub x else x) db.subscriptions := hq
    obtain ⟨r, hrmem, hrq⟩ := List.mem_map.mp hq'
    by_cases hk : r.stripeSubscriptionId = sub.id
    · right
      refine ⟨r, hrmem, hk, ?_⟩
      rw [← hrq, if_pos hk]
      rfl
    · left
      have hqr : q = r := by rw [← hrq, if_neg hk]
      rw [hqr]
      exact ⟨hrmem, hk⟩
  · intro hnone
    have h1 := updateMany_no_match db.subscriptions sub.id
      (subEventUpdateRow sub) hnone
    show ({ users := db.users,
            subscriptions := subscriptionUpdateMany db.subscriptions sub.id
              (subEventUpdateRow sub) } : Db) = db
    rw [h1]

/-- Concrete inputs for the subscription_update_events witness. -/
def rowA : SubRow := ⟨"s1", "u1", "pro", "active", "cus", "sub_9", 5, 5⟩

/-- A row with a different stripeSubscriptionId. -/
def rowB : SubRow := ⟨"s2", "u2", "pro", "active", "cus", "other", 6, 6⟩

/-- The subscription object of the witness event. -/
def subC5 : SubscriptionObject := ⟨"sub_9", some "canceled", some 42⟩

/-- Witness for subscription_update_events at a concrete input: one
matching and one non-matching row. -/
theorem subscription_update_events_witness :
    (webhookPOST cfgOk (fun _ _ _ => some (.customerSubscriptionUpdated subC5))
        sigReq ⟨[], [rowA, rowB]⟩ noFaults 0 "i" =
      .response .ok ⟨[], [⟨"s1", "u1", "pro", "canceled", "cus", "sub_9",
        42000, 5⟩, rowB]⟩) ∧
    ((⟨[], [⟨"s1", "u1", "pro", "canceled", "cus", "sub_9", 42000, 5⟩,
        rowB]⟩ : Db).users = (⟨[], [rowA, rowB]⟩ : Db).users ∧
     (⟨[], [⟨"s1", "u1", "pro", "canceled", "cus", "sub_9", 42000, 5⟩,
        rowB]⟩ : Db).subscriptions.length =
       (⟨[], [rowA, rowB]⟩ : Db).subscriptions.length ∧
     (∀ r ∈ (⟨[], [rowA, rowB]⟩ : Db).subscriptions,
        r.stripeSubscriptionId ≠ subC5.id →
        r ∈ (⟨[], [⟨"s1", "u1", "pro", "canceled", "cus", "sub_9", 42000,
          5⟩, rowB]⟩ : Db).subscriptions) ∧
     (∀ r ∈ (⟨[], [rowA, rowB]⟩ : Db).subscriptions,
        r.stripeSubscriptionId = subC5.id →
        { r with status := subC5.status.getD "unknown",
                 currentPeriodEnd :=
                   (subC5.items_first_current_period_end.getD 0) * 1000 } ∈
          (⟨[], [⟨"s1", "u1", "pro", "canceled", "cus", "sub_9", 42000, 5⟩,
            rowB]⟩ : Db).subscriptions) ∧
     (∀ q ∈ (⟨[], [⟨"s1", "u1", "pro", "canceled", "cus", "sub_9", 42000,
          5⟩, rowB]⟩ : Db).subscriptions,
        (q ∈ (⟨[], [rowA, rowB]⟩ : Db).subscriptions ∧
          q.stripeSubscriptionId ≠ subC5.id) ∨
        (∃ r ∈ (⟨[], [rowA, rowB]⟩ : Db).subscriptions,
          r.stripeSubscriptionId = subC5.id ∧
          q = { r with status := subC5.status.getD "unknown",
                       currentPeriodEnd :=
                         (subC5.items_first_current_period_end.getD 0) *
                           1000 })) ∧
     ((∀ r ∈ (⟨[], [rowA, rowB]⟩ : Db).subscriptions,
        r.stripeSubscriptionId ≠ subC5.id) →
       (⟨[], [⟨"s1", "u1", "pro", "canceled", "cus", "sub_9", 42000, 5⟩,
         rowB]⟩ : Db) = ⟨[], [rowA, rowB]⟩)) :=
  ⟨by decide,
   subscription_update_events cfgOk
     (fun _ _ _ => some (.customerSubscriptionUpdated subC5)) sigReq
     ⟨[], [rowA, rowB]⟩ noFaults 0 "i" subC5 _ _ (Or.inl rfl) (by decide)
     (by decide) rfl (by decide) (by decide)⟩

/-- C1: delivering the identical checkout.session.completed event twice
creates no second row: the second delivery leaves the number of
Subscription rows unchanged, and at most one row carries the event's
stripeSubscriptionId afterwards, because the write is an upsert keyed by
the unique stripeSubscriptionId column (uniqueSubIds is that schema
constraint on the starting database). -/
theorem checkout_redelivery_idempotent (env : WebhookEnv)
    (verify : String → String → String → Option StripeEvent)
    (req : WebhookRequest) (db : Db) (faults : DbFaults)
    (now1 : Int) (freshId1 : String) (now2 : Int) (freshId2 : String)
    (s : CheckoutSession) (db1 db2 : Db)
    (henv : (jsFalsy env.stripeSecretKey ||
             jsFalsy env.stripeWebhookSecret) = false)
    (hsig : jsFalsy req.signatureHeader = false)
    (hver : verify req.body (req.signatureHeader.getD "")
        (env.stripeWebhookSecret.getD "") =
      some (.checkoutSessionCompleted s))
    (hfault : faults.upsertThrows = false)
    (huniq : uniqueSubIds db)
    (h1 : webhookPOST env verify req db faults now1 freshId1 =
        .response .ok db1)
    (h2 : webhookPOST env verify req db1 faults now2 freshId2 =
        .response .ok db2) :
    db2.subscriptions.length = db1.subscriptions.length ∧
    subCount db2.subscriptions (s.subscription.getD "") ≤ 1 := by
  have hw1 := webhookPOST_eq_ok env verify req db faults now1 freshId1 _
    henv hsig hver (processEvent_checkout_threw s db faults now1 freshId1)
  rw [hw1] at h1
  have hdb1 : db1 =
      (processEvent (.checkoutSessionCompleted s) db faults now1
        freshId1).db := by
    injection h1 with h1a h1b
    exact h1b.symm
  have hw2 := webhookPOST_eq_ok env verify req db1 faults now2 freshId2 _
    henv hsig hver (processEvent_checkout_threw s db1 faults now2 freshId2)
  rw [hw2] at h2
  have hdb2 : db2 =
      (processEvent (.checkoutSessionCompleted s) db1 faults now2
        freshId2).db := by
    injection h2 with h2a h2b
    exact h2b.symm
  have hcount : subCount db.subscriptions (s.subscription.getD "") ≤ 1 :=
    subCount_le_one_of_pairwise db.subscriptions _ huniq
  by_cases hb : (jsFalsy s.customer || jsFalsy s.customer_email) = true
  · rw [processEvent_checkout_noop_db s db faults now1 freshId1 hb] at hdb1
    rw [hdb1, processEvent_checkout_noop_db s db faults now2 freshId2 hb]
      at hdb2
    rw [hdb2, hdb1]
    exact ⟨rfl, hcount⟩
  · rw [Bool.not_eq_true] at hb
    cases hu : db.users.find? (fun x => x.email == s.customer_email) with
    | none =>
        rw [processEvent_checkout_nouser_db s db faults now1 freshId1 hb hu]
          at hdb1
        rw [hdb1, processEvent_checkout_nouser_db s db faults now2 freshId2
          hb hu] at hdb2
        rw [hdb2, hdb1]
        exact ⟨rfl, hcount⟩
    | some u =>
        rw [processEvent_checkout_upsert_db s db faults now1 freshId1 u hb
          hu hfault] at hdb1
        rw [hdb1] at hdb2
        rw [processEvent_checkout_upsert_db s _ faults now2 freshId2 u hb
          (by exact hu) hfault] at hdb2
        have hu1 : ∀ r, (checkoutUpdateRow (s.metadata_plan.getD "pro")
            (jsOr ((s.expires_at.getD 0) * 1000) now1) r).stripeSubscriptionId =
            r.stripeSubscriptionId := fun r => rfl
        have hu2 : ∀ r, (checkoutUpdateRow (s.metadata_plan.getD "pro")
            (jsOr ((s.expires_at.getD 0) * 1000) now2) r).stripeSubscriptionId =
            r.stripeSubscriptionId := fun r => rfl
        have hhas : hasSubId
            (subscriptionUpsert db.subscriptions (s.subscription.getD "")
              (checkoutUpdateRow (s.metadata_plan.getD "pro")
                (jsOr ((s.expires_at.getD 0) * 1000) now1))
              (checkoutCreateRow freshId1 u.id (s.metadata_plan.getD "pro")
                (s.customer.getD "") (s.subscription.getD "")
                (jsOr ((s.expires_at.getD 0) * 1000) now1) now1))
            (s.subscription.getD "") = true :=
          hasSubId_upsert _ _ _ _ hu1 rfl
        rw [hdb2, hdb1]
        constructor
        · exact length_upsert_of_hasSubId _ _ _ _ hhas
        · exact subCount_upsert_le_one _ _ _ _ hu2 rfl
            (subCount_upsert_le_one _ _ _ _ hu1 rfl hcount)

/-- The checkout session of the idempotence witness. -/
def sFull : CheckoutSession :=
  ⟨some "cus_1", some "a@b.com", some "sub_1", some "pro", none⟩

/-- A one-user database with no subscriptions. -/
def dbU : Db := ⟨[⟨"u1", some "a@b.com"⟩], []⟩

/-- Witness for checkout_redelivery_idempotent at a concrete input: the
first delivery creates the row, the second updates it in place. -/
theorem checkout_redelivery_idempotent_witness :
    uniqueSubIds dbU ∧
    (webhookPOST cfgOk
        (fun _ _ _ => some (.checkoutSessionCompleted sFull)) sigReq dbU
        noFaults 1000 "c1" =
      .response .ok ⟨dbU.users, [⟨"c1", "u1", "pro", "active", "cus_1",
        "sub_1", 1000, 1000⟩]⟩) ∧
    (webhookPOST cfgOk
        (fun _ _ _ => some (.checkoutSessionCompleted sFull)) sigReq
        ⟨dbU.users, [⟨"c1", "u1", "pro", "active", "cus_1", "sub_1", 1000,
          1000⟩]⟩ noFaults 2000 "c2" =
      .response .ok ⟨dbU.users, [⟨"c1", "u1", "pro", "active", "cus_1",
        "sub_1", 2000, 1000⟩]⟩) ∧
    ((⟨dbU.users, [⟨"c1", "u1", "pro", "active", "cus_1", "sub_1", 2000,
        1000⟩]⟩ : Db).subscriptions.length =
      (⟨dbU.users, [⟨"c1", "u1", "pro", "active", "cus_1", "sub_1", 1000,
        1000⟩]⟩ : Db).subscriptions.length ∧
     subCount (⟨dbU.users, [⟨"c1", "u1", "pro", "active", "cus_1", "sub_1",
        2000, 1000⟩]⟩ : Db).subscriptions (sFull.subscription.getD "") ≤ 1) :=
  ⟨by decide, by decide, by decide,
   checkout_redelivery_idempotent cfgOk
     (fun _ _ _ => some (.checkoutSessionCompleted sFull)) sigReq dbU
     noFaults 1000 "c1" 2000 "c2" sFull _ _ (by decide) (by decide) rfl
     (by decide) (by decide) (by decide) (by decide)⟩

/-- A checkout session with customer and email set but no subscription
identifier and no metadata. -/
def sNoSubId : CheckoutSession :=
  ⟨some "cus_1", some "a@b.com", none, none, none⟩

/-- C3 counterexample: an authenticated checkout.session.completed event
with a customer and a resolvable customer email but no subscription
identifier is not a no-op — the handler writes a Subscription row (keyed
by the empty string), although the claim says such an event results in no
Subscription write. -/
theorem missing_sub_id_still_writes :
    webhookPOST cfgOk
        (fun _ _ _ => some (.checkoutSessionCompleted sNoSubId)) sigReq dbU
        noFaults 1000 "c1" =
      .response .ok ⟨dbU.users, [⟨"c1", "u1", "pro", "active", "cus_1", "",
        1000, 1000⟩]⟩ ∧
    dbU.subscriptions.length = 0 := by decide

/-- C3 (amended): an authenticated checkout.session.completed event that
lacks a customer identifier or a customer email (missing or empty), or
whose email matches no User, is a no-op: the database is unchanged and
the handler still acknowledges success.  An event with a customer and a
resolvable email but no subscription identifier is not a no-op: the
handler upserts a Subscription row keyed by the empty string. -/
theorem checkout_noop_conditions (env : WebhookEnv)
    (verify : String → String → String → Option StripeEvent)
    (req : WebhookRequest) (db : Db) (faults : DbFaults)
    (now : Int) (freshId : String) (s : CheckoutSession)
    (henv : (jsFalsy env.stripeSecretKey ||
             jsFalsy env.stripeWebhookSecret) = false)
    (hsig : jsFalsy req.signatureHeader = false)
    (hver : verify req.body (req.signatureHeader.getD "")
        (env.stripeWebhookSecret.getD "") =
      some (.checkoutSessionCompleted s)) :
    ((jsFalsy s.customer = true ∨ jsFalsy s.customer_email = true ∨
        db.users.find? (fun u => u.email == s.customer_email) = none) →
      webhookPOST env verify req db faults now freshId =
        .response .ok db) ∧
    (∀ u, jsFalsy s.customer = false → jsFalsy s.customer_email = false →
      db.users.find? (fun x => x.email == s.customer_email) = some u →
      s.subscription = none → faults.upsertThrows = false →
      ∃ db', webhookPOST env verify req db faults now freshId =
          .response .ok db' ∧ hasSubId db'.subscriptions "" = true) := by
  constructor
  · intro hcase
    by_cases hb : (jsFalsy s.customer || jsFalsy s.customer_email) = true
    · rw [webhookPOST_eq_ok env verify req db faults now freshId _ henv
        hsig hver (processEvent_checkout_threw s db faults now freshId),
        processEvent_checkout_noop_db s db faults now freshId hb]
    · rw [Bool.not_eq_true, Bool.or_eq_false_iff] at hb
      obtain ⟨hb1, hb2⟩ := hb
      have hfind : db.users.find?
          (fun u => u.email == s.customer_email) = none := by
        rcases hcase with h | h | h
        · exact absurd h (by rw [hb1]; exact Bool.false_ne_true)
        · exact absurd h (by rw [hb2]; exact Bool.false_ne_true)
        · exact h
      rw [webhookPOST_eq_ok env verify req db faults now freshId _ henv
        hsig hver (processEvent_checkout_threw s db faults now freshId),
        processEvent_checkout_nouser_db s db faults now freshId
          (by rw [hb1, hb2]; rfl) hfind]
  · intro u hc he hfind hsub hupsert
    have heq : webhookPOST env verify req db faults now freshId =
        .response .ok
          { users := db.users,
            subscriptions :=
              subscriptionUpsert db.subscriptions (s.subscription.getD "")
                (checkoutUpdateRow (s.metadata_plan.getD "pro")
                  (jsOr ((s.expires_at.getD 0) * 1000) now))
                (checkoutCreateRow freshId u.id (s.metadata_plan.getD "pro")
                  (s.customer.getD "") (s.subscription.getD "")
                  (jsOr ((s.expires_at.getD 0) * 1000) now) now) } := by
      rw [webhookPOST_eq_ok env verify req db faults now freshId _ henv
        hsig hver (processEvent_checkout_threw s db faults now freshId),
        processEvent_checkout_upsert_db s db faults now freshId u
          (by rw [hc, he]; rfl) hfind hupsert]
    refine ⟨_, heq, ?_⟩
    show hasSubId (subscriptionUpsert db.subscriptions
      (s.subscription.getD "") _ _) "" = true
    rw [hsub]
    exact hasSubId_upsert _ _ _ _ (fun r => rfl) rfl

/-- Witness for checkout_noop_conditions at a concrete input. -/
theorem checkout_noop_conditions_witness :
    ((jsFalsy cfgOk.stripeSecretKey ||
      jsFalsy cfgOk.stripeWebhookSecret) = false) ∧
    (((jsFalsy sNoSubId.customer = true ∨
        jsFalsy sNoSubId.customer_email = true ∨
        dbU.users.find?
          (fun u => u.email == sNoSubId.customer_email) = none) →
      webhookPOST cfgOk
          (fun _ _ _ => some (.checkoutSessionCompleted sNoSubId)) sigReq
          dbU noFaults 1000 "c1" =
        .response .ok dbU) ∧
     (∀ u, jsFalsy sNoSubId.customer = false →
        jsFalsy sNoSubId.customer_email = false →
        dbU.users.find? (fun x => x.email == sNoSubId.customer_email) =
          some u →
        sNoSubId.subscription = none → noFaults.upsertThrows = false →
        ∃ db', webhookPOST cfgOk
            (fun _ _ _ => some (.checkoutSessionCompleted sNoSubId)) sigReq
            dbU noFaults 1000 "c1" = .response .ok db' ∧
          hasSubId db'.subscriptions "" = true)) :=
  ⟨by decide,
   checkout_noop_conditions cfgOk
     (fun _ _ _ => some (.checkoutSessionCompleted sNoSubId)) sigReq dbU
     noFaults 1000 "c1" sNoSubId (by decide) (by decide) rfl⟩

/-- The example event of the specification, embedded literally: type
checkout.session.completed, customer_email a@b.com, subscription sub_1,
metadata.plan pro, and no other fields set — in particular no customer. -/
def sExample : CheckoutSession :=
  ⟨none, some "a@b.com", some "sub_1", some "pro", none⟩

/-- C4 counterexample: processing the specification's example event (which
sets no customer field) against a database holding a User with email
a@b.com writes nothing at all — the guard on session.customer breaks out
of the switch, so no Subscription row with stripeSubscriptionId sub_1
exists afterwards, contradicting the claimed single active pro row. -/
theorem example_event_as_stated_writes_nothing :
    webhookPOST cfgOk
        (fun _ _ _ => some (.checkoutSessionCompleted sExample)) sigReq dbU
        noFaults 1000 "c1" =
      .response .ok dbU ∧
    dbU.subscriptions.length = 0 := by decide

/-- C4 (amended): the example event additionally needs its customer field
set (here cus_1); processing it against a database with a User of email
a@b.com and no subscriptions then leaves exactly one Subscription row,
with plan pro, status active and stripeSubscriptionId sub_1. -/
theorem example_event_with_customer_creates_row :
    webhookPOST cfgOk
        (fun _ _ _ => some (.checkoutSessionCompleted sFull)) sigReq dbU
        noFaults 1000 "c1" =
      .response .ok ⟨dbU.users, [⟨"c1", "u1", "pro", "active", "cus_1",
        "sub_1", 1000, 1000⟩]⟩ := by decide

/-- C6 counterexample: a database exception during the updateMany of an
authenticated customer.subscription.updated event is not caught — the
handler throws instead of returning the success acknowledgment, refuting
the claim that every authenticated event is acknowledged even when the
database write throws. -/
theorem updateMany_exception_propagates :
    webhookPOST cfgOk
        (fun _ _ _ => some (.customerSubscriptionUpdated subC5)) sigReq
        ⟨[], [rowA]⟩ ⟨false, true⟩ 0 "i" =
      .thrown ⟨[], [rowA]⟩ ∧
    (WebhookOutcome.thrown ⟨[], [rowA]⟩).isOk = false := by decide

/-- C6 (amended): every authenticated event is acknowledged with success
as long as no exception escapes the updateMany call; an exception thrown
by the checkout upsert is caught, logged and swallowed — the handler still
answers 200 and the database is unchanged.  (An updateMany exception
propagates instead, see the counterexample.) -/
theorem ack_success_unless_updateMany_throws (env : WebhookEnv)
    (verify : String → String → String → Option StripeEvent)
    (req : WebhookRequest) (db : Db) (faults : DbFaults)
    (now : Int) (freshId : String) (e : StripeEvent)
    (henv : (jsFalsy env.stripeSecretKey ||
             jsFalsy env.stripeWebhookSecret) = false)
    (hsig : jsFalsy req.signatureHeader = false)
    (hver : verify req.body (req.signatureHeader.getD "")
        (env.stripeWebhookSecret.getD "") = some e)
    (hf : faults.updateManyThrows = false) :
    (webhookPOST env verify req db faults now freshId).isOk = true ∧
    (∀ s, e = .checkoutSessionCompleted s → faults.upsertThrows = true →
      jsFalsy s.customer = false → jsFalsy s.customer_email = false →
      ∀ u, db.users.find? (fun x => x.email == s.customer_email) = some u →
      webhookPOST env verify req db faults now freshId =
        .response .ok db) := by
  have hw := webhookPOST_eq_ok env verify req db faults now freshId e henv
    hsig hver (processEvent_threw_of_noUpdateManyFault e db faults now
      freshId hf)
  constructor
  · rw [hw]
    rfl
  · intro s hes hupsert hc hemail u hfind
    subst hes
    rw [hw, processEvent_checkout_fault_db s db faults now freshId u
      (by rw [hc, hemail]; rfl) hfind hupsert]

/-- Witness for ack_success_unless_updateMany_throws at a concrete input
where the checkout upsert throws. -/
theorem ack_success_unless_updateMany_throws_witness :
    ((jsFalsy cfgOk.stripeSecretKey ||
      jsFalsy cfgOk.stripeWebhookSecret) = false) ∧
    ((webhookPOST cfgOk
        (fun _ _ _ => some (.checkoutSessionCompleted sFull)) sigReq dbU
        ⟨true, false⟩ 1000 "c1").isOk = true ∧
     (∀ s, StripeEvent.checkoutSessionCompleted sFull =
          .checkoutSessionCompleted s →
        (⟨true, false⟩ : DbFaults).upsertThrows = true →
        jsFalsy s.customer = false → jsFalsy s.customer_email = false →
        ∀ u, dbU.users.find? (fun x => x.email == s.customer_email) =
            some u →
        webhookPOST cfgOk
            (fun _ _ _ => some (.checkoutSessionCompleted sFull)) sigReq
            dbU ⟨true, false⟩ 1000 "c1" =
          .response .ok dbU)) :=
  ⟨by decide,
   ack_success_unless_updateMany_throws cfgOk
     (fun _ _ _ => some (.checkoutSessionCompleted sFull)) sigReq dbU
     ⟨true, false⟩ 1000 "c1" _ (by decide) (by decide) rfl (by decide)⟩

lemma hasSubId_of_mem (l : List SubRow) (r : SubRow) (k : String)
    (hr : r ∈ l) (hk : r.stripeSubscriptionId = k) :
    hasSubId l k = true := by
  unfold hasSubId
  rw [List.any_eq_true]
  exact ⟨r, hr, by simp [hk]⟩

/-- C10: when a checkout.session.completed event's subscription identifier
already has a Subscription row, processing the event never creates or
removes rows, leaves every row with a different identifier untouched, and
the row with that identifier keeps its id, userId, stripeCustomerId and
createdAt — only status, plan and currentPeriodEnd can change (the upsert
takes its update branch, which does not write userId even when the event's
email resolves to a different user). -/
theorem upsert_preserves_identity_fields (env : WebhookEnv)
    (verify : String → String → String → Option StripeEvent)
    (req : WebhookRequest) (db : Db) (faults : DbFaults)
    (now : Int) (freshId : String) (s : CheckoutSession)
    (db' : Db) (r : SubRow)
    (henv : (jsFalsy env.stripeSecretKey ||
             jsFalsy env.stripeWebhookSecret) = false)
    (hsig : jsFalsy req.signatureHeader = false)
    (hver : verify req.body (req.signatureHeader.getD "")
        (env.stripeWebhookSecret.getD "") =
      some (.checkoutSessionCompleted s))
    (hr : r ∈ db.subscriptions)
    (hk : r.stripeSubscriptionId = s.subscription.getD "")
    (h : webhookPOST env verify req db faults now freshId =
        .response .ok db') :
    db'.subscriptions.length = db.subscriptions.length ∧
    (∀ q ∈ db.subscriptions,
      q.stripeSubscriptionId ≠ s.subscription.getD "" →
      q ∈ db'.subscriptions) ∧
    (∃ r' ∈ db'.subscriptions,
      r'.stripeSubscriptionId = r.stripeSubscriptionId ∧
      r'.id = r.id ∧ r'.userId = r.userId ∧
      r'.stripeCustomerId = r.stripeCustomerId ∧
      r'.createdAt = r.createdAt) := by
  have hw := webhookPOST_eq_ok env verify req db faults now freshId _ henv
    hsig hver (processEvent_checkout_threw s db faults now freshId)
  rw [hw] at h
  have hdb : db' =
      (processEvent (.checkoutSessionCompleted s) db faults now
        freshId).db := by
    injection h with ha hb
    exact hb.symm
  have hhas : hasSubId db.subscriptions (s.subscription.getD "") = true :=
    hasSubId_of_mem db.subscriptions r _ hr hk
  have hsame : ∀ hdbeq : db' = db,
      db'.subscriptions.length = db.subscriptions.length ∧
      (∀ q ∈ db.subscriptions,
        q.stripeSubscriptionId ≠ s.subscription.getD "" →
        q ∈ db'.subscriptions) ∧
      (∃ r' ∈ db'.subscriptions,
        r'.stripeSubscriptionId = r.stripeSubscriptionId ∧
        r'.id = r.id ∧ r'.userId = r.userId ∧
        r'.stripeCustomerId = r.stripeCustomerId ∧
        r'.createdAt = r.createdAt) := by
    intro hdbeq
    rw [hdbeq]
    exact ⟨rfl, fun q hq _ => hq, ⟨r, hr, rfl, rfl, rfl, rfl, rfl⟩⟩
  by_cases hb : (jsFalsy s.customer || jsFalsy s.customer_email) = true
  · exact hsame (by
      rw [hdb, processEvent_checkout_noop_db s db faults now freshId hb])
  · rw [Bool.not_eq_true] at hb
    cases hu : db.users.find? (fun x => x.email == s.customer_email) with
    | none =>
        exact hsame (by
          rw [hdb,
            processEvent_checkout_nouser_db s db faults now freshId hb hu])
    | some u =>
        cases hf : faults.upsertThrows with
        | true =>
            exact hsame (by
              rw [hdb, processEvent_checkout_fault_db s db faults now
                freshId u hb hu hf])
        | false =>
            rw [processEvent_checkout_upsert_db s db faults now freshId u
              hb hu hf] at hdb
            subst hdb
            refine ⟨?_, ?_, ?_⟩
            · exact length_upsert_of_hasSubId _ _ _ _ hhas
            · intro q hq hqne
              show q ∈ subscriptionUpsert db.subscriptions
                (s.subscription.getD "") _ _
              unfold subscriptionUpsert
              rw [if_pos hhas]
              exact List.mem_map.mpr ⟨q, hq, if_neg hqne⟩
            · refine ⟨checkoutUpdateRow (s.metadata_plan.getD "pro")
                (jsOr ((s.expires_at.getD 0) * 1000) now) r, ?_,
                rfl, rfl, rfl, rfl, rfl⟩
              show _ ∈ subscriptionUpsert db.subscriptions
                (s.subscription.getD "") _ _
              unfold subscriptionUpsert
              rw [if_pos hhas]
              exact List.mem_map.mpr ⟨r, hr, if_pos hk⟩

/-- A database whose one subscription row (keyed sub_1) belongs to a user
u9 different from the user that owns email a@b.com. -/
def dbOwned : Db :=
  ⟨[⟨"u1", some "a@b.com"⟩],
   [⟨"s1", "u9", "basic", "canceled", "cusX", "sub_1", 7, 3⟩, rowB]⟩

/-- Witness for upsert_preserves_identity_fields at a concrete input: the
row keyed sub_1 keeps id s1, userId u9, stripeCustomerId cusX and
createdAt 3 although the event's email resolves to user u1. -/
theorem upsert_preserves_identity_fields_witness :
    ((⟨"s1", "u9", "basic", "canceled", "cusX", "sub_1", 7, 3⟩ : SubRow) ∈
      dbOwned.subscriptions) ∧
    (webhookPOST cfgOk
        (fun _ _ _ => some (.checkoutSessionCompleted sFull)) sigReq
        dbOwned noFaults 1000 "c1" =
      .response .ok ⟨dbOwned.users, [⟨"s1", "u9", "pro", "active", "cusX",
        "sub_1", 1000, 3⟩, rowB]⟩) ∧
    ((⟨dbOwned.users, [⟨"s1", "u9", "pro", "active", "cusX", "sub_1", 1000,
        3⟩, rowB]⟩ : Db).subscriptions.length =
      dbOwned.subscriptions.length ∧
     (∀ q ∈ dbOwned.subscriptions,
        q.stripeSubscriptionId ≠ sFull.subscription.getD "" →
        q ∈ (⟨dbOwned.users, [⟨"s1", "u9", "pro", "active", "cusX", "sub_1",
          1000, 3⟩, rowB]⟩ : Db).subscriptions) ∧
     (∃ r' ∈ (⟨dbOwned.users, [⟨"s1", "u9", "pro", "active", "cusX",
          "sub_1", 1000, 3⟩, rowB]⟩ : Db).subscriptions,
        r'.stripeSubscriptionId =
          (⟨"s1", "u9", "basic", "canceled", "cusX", "sub_1", 7, 3⟩ :
            SubRow).stripeSubscriptionId ∧
        r'.id = "s1" ∧ r'.userId = "u9" ∧ r'.stripeCustomerId = "cusX" ∧
        r'.createdAt = 3)) :=
  ⟨by decide, by decide,
   upsert_preserves_identity_fields cfgOk
     (fun _ _ _ => some (.checkoutSessionCompleted sFull)) sigReq dbOwned
     noFaults 1000 "c1" sFull _
     ⟨"s1", "u9", "basic", "canceled", "cusX", "sub_1", 7, 3⟩ (by decide)
     (by decide) rfl (by decide) (by decide) (by decide)⟩

/-- C8 counterexample: the plan name constructor is not in the static
mapping, yet the object lookup yields the truthy inherited
Object.prototype.constructor, the invalid-plan check passes, and the
handler performs the external stripe.checkout.sessions.create call,
answering 200 with the checkout URL instead of a structured error. -/
theorem prototype_plan_reaches_external_call :
    (checkoutPOST ⟨some "sk", some "price_pro", none⟩ "constructor"
      (.ok (some "https://pay.example/x"))).2 = true ∧
    (checkoutPOST ⟨some "sk", some "price_pro", none⟩ "constructor"
      (.ok (some "https://pay.example/x"))).1 =
      .url (some "https://pay.example/x") ∧
    ("constructor" : String) ≠ "pro" ∧
    ("constructor" : String) ≠ "enterprise" := by decide

/-- C8 (amended): a checkout request whose plan name is neither pro nor
enterprise nor one of the Object.prototype property names never reaches
the external provider — the call flag stays false — and gets a structured
error (500 misconfiguration or 400 invalid plan), never 200.  A plan name
inherited from Object.prototype (constructor, toString, __proto__, ...)
instead slips past the invalid-plan check: whenever the secret key is
configured, the external call is performed. -/
theorem unknown_plan_no_external_call (env : CheckoutEnv) (plan : String)
    (stripeCreate : Except String (Option String))
    (h1 : plan ≠ "pro") (h2 : plan ≠ "enterprise")
    (h3 : plan ∉ objectPrototypeKeys) :
    ((checkoutPOST env plan stripeCreate).2 = false ∧
     ((checkoutPOST env plan stripeCreate).1 = .misconfig ∨
      (checkoutPOST env plan stripeCreate).1 = .invalidPlan) ∧
     (checkoutPOST env plan stripeCreate).1.statusCode ≠ 200) ∧
    (∀ plan2, plan2 ∈ objectPrototypeKeys →
      jsFalsy env.stripeSecretKey = false →
      (checkoutPOST env plan2 stripeCreate).2 = true) := by
  constructor
  · have hp : priceMap env plan = .absent := by
      unfold priceMap
      rw [if_neg h1, if_neg h2, if_neg h3]
    by_cases hs : jsFalsy env.stripeSecretKey = true
    · have h : checkoutPOST env plan stripeCreate = (.misconfig, false) := by
        unfold checkoutPOST
        rw [if_pos hs]
      rw [h]
      exact ⟨rfl, Or.inl rfl, by decide⟩
    · have h : checkoutPOST env plan stripeCreate =
          (.invalidPlan, false) := by
        unfold checkoutPOST
        rw [Bool.not_eq_true] at hs
        rw [if_neg (by rw [hs]; exact Bool.false_ne_true), hp,
          if_pos (by rfl)]
      rw [h]
      exact ⟨rfl, Or.inr rfl, by decide⟩
  · intro plan2 hmem hsk
    have hq1 : plan2 ≠ "pro" := by
      intro h
      rw [h] at hmem
      exact absurd hmem (by decide)
    have hq2 : plan2 ≠ "enterprise" := by
      intro h
      rw [h] at hmem
      exact absurd hmem (by decide)
    have hp : priceMap env plan2 = .inherited := by
      unfold priceMap
      rw [if_neg hq1, if_neg hq2, if_pos hmem]
    unfold checkoutPOST
    rw [if_neg (by rw [hsk]; exact Bool.false_ne_true), hp,
      if_neg (by decide : ¬ (jsFalsyLookup JsLookup.inherited = true))]
    cases stripeCreate <;> rfl

/-- Witness for unknown_plan_no_external_call at a concrete input. -/
theorem unknown_plan_no_external_call_witness :
    (("basic" : String) ≠ "pro" ∧ ("basic" : String) ≠ "enterprise" ∧
     ("basic" : String) ∉ objectPrototypeKeys) ∧
    (((checkoutPOST ⟨some "sk", some "price_pro", none⟩ "basic"
        (.ok (some "https://pay.example"))).2 = false ∧
      ((checkoutPOST ⟨some "sk", some "price_pro", none⟩ "basic"
        (.ok (some "https://pay.example"))).1 = .misconfig ∨
       (checkoutPOST ⟨some "sk", some "price_pro", none⟩ "basic"
        (.ok (some "https://pay.example"))).1 = .invalidPlan) ∧
      (checkoutPOST ⟨some "sk", some "price_pro", none⟩ "basic"
        (.ok (some "https://pay.example"))).1.statusCode ≠ 200) ∧
     (∀ plan2, plan2 ∈ objectPrototypeKeys →
       jsFalsy (⟨some "sk", some "price_pro", none⟩ :
         CheckoutEnv).stripeSecretKey = false →
       (checkoutPOST ⟨some "sk", some "price_pro", none⟩ plan2
         (.ok (some "https://pay.example"))).2 = true)) :=
  ⟨by decide,
   unknown_plan_no_external_call ⟨some "sk", some "price_pro", none⟩
     "basic" (.ok (some "https://pay.example")) (by decide) (by decide)
     (by decide)⟩

/-- A database in which user u1 (email x@y.com) has exactly one
subscription, whose status is canceled. -/
def dbC9 : Db :=
  ⟨[⟨"u1", some "x@y.com"⟩],
   [⟨"s1", "u1", "pro", "canceled", "cus", "sub_7", 5, 5⟩]⟩

/-- C9 counterexample: with an authenticated session for x@y.com, a
subscription of that user exists (status canceled), yet the endpoint
answers plan free / status none rather than the subscription's fields —
the code filters on status active/trialing, refuting the claim that the
fields are returned whenever a subscription exists. -/
theorem canceled_subscription_reported_free :
    subscriptionGET (some "x@y.com") dbC9 = .freeNone ∧
    (∃ r ∈ dbC9.subscriptions,
      (dbC9.users.find? (fun u => u.id == r.userId)).any
        (fun u => u.email == some "x@y.com") = true) ∧
    SubReadResponse.freeNone ≠ .subInfo "pro" "canceled" 5 := by decide

/-- C9 (amended): without a session email the endpoint answers
unauthorized; with one, a subInfo answer always reports an actual
subscription row of the session user with status active or trialing, and
freeNone is answered exactly when the user has no active-or-trialing
subscription (rows in other statuses are ignored); when such a row exists
a subInfo answer is produced. -/
theorem subscription_read_contract (email : Option String) (db : Db) :
    (jsFalsy email = true → subscriptionGET email db = .unauthorized) ∧
    (jsFalsy email = false →
      ∀ p st cpe, subscriptionGET email db = .subInfo p st cpe →
        ∃ r ∈ db.subscriptions, activeSubFor db email r = true ∧
          r.plan = p ∧ r.status = st ∧ r.currentPeriodEnd = cpe ∧
          (st = "active" ∨ st = "trialing")) ∧
    (jsFalsy email = false → subscriptionGET email db = .freeNone →
      ∀ r ∈ db.subscriptions, activeSubFor db email r = false) ∧
    (jsFalsy email = false →
      (∃ r ∈ db.subscriptions, activeSubFor db email r = true) →
      ∃ p st cpe, subscriptionGET email db = .subInfo p st cpe) := by
  refine ⟨?_, ?_, ?_, ?_⟩
  · intro h
    simp [subscriptionGET, h]
  · intro h p st cpe hsub
    have hget : subscriptionGET email db =
        (match db.subscriptions.find? (activeSubFor db email) with
         | none => SubReadResponse.freeNone
         | some r => .subInfo r.plan r.status r.currentPeriodEnd) := by
      simp [subscriptionGET, h]
    cases hfind : db.subscriptions.find? (activeSubFor db email) with
    | none =>
        rw [hget, hfind] at hsub
        exact absurd hsub (by simp)
    | some r =>
        rw [hget, hfind] at hsub
        injection hsub with hp hst hcpe
        have hmem := List.mem_of_find?_eq_some hfind
        have hpred := List.find?_some hfind
        have hactive : (r.status == "active" || r.status == "trialing") =
            true := by
          unfold activeSubFor at hpred
          exact (Bool.and_eq_true _ _).mp hpred |>.2
        refine ⟨r, hmem, hpred, hp, hst, hcpe, ?_⟩
        rcases Bool.or_eq_true _ _ |>.mp hactive with ha | ha
        · exact Or.inl (hst ▸ eq_of_beq ha)
        · exact Or.inr (hst ▸ eq_of_beq ha)
  · intro h hfree r hmem
    have hget : subscriptionGET email db =
        (match db.subscriptions.find? (activeSubFor db email) with
         | none => SubReadResponse.freeNone
         | some r => .subInfo r.plan r.status r.currentPeriodEnd) := by
      simp [subscriptionGET, h]
    cases hfind : db.subscriptions.find? (activeSubFor db email) with
    | none =>
        have := List.find?_eq_none.mp hfind r hmem
        exact Bool.not_eq_true _ |>.mp this
    | some q =>
        rw [hget, hfind] at hfree
        exact absurd hfree (by simp)
  · intro h hex
    have hget : subscriptionGET email db =
        (match db.subscriptions.find? (activeSubFor db email) with
         | none => SubReadResponse.freeNone
         | some r => .subInfo r.plan r.status r.currentPeriodEnd) := by
      simp [subscriptionGET, h]
    cases hfind : db.subscriptions.find? (activeSubFor db email) with
    | none =>
        obtain ⟨r, hmem, hact⟩ := hex
        have := List.find?_eq_none.mp hfind r hmem
        exact absurd hact (by simpa using this)
    | some r =>
        rw [hget, hfind]
        exact ⟨r.plan, r.status, r.currentPeriodEnd, rfl⟩

/-- Witness for subscription_read_contract at a concrete input (dbC9
extended with an active row for the same user). -/
theorem subscription_read_contract_witness :
    (jsFalsy (some "x@y.com") = true →
      subscriptionGET (some "x@y.com")
        ⟨dbC9.users, [⟨"s2", "u1", "pro", "active", "cus", "sub_8", 9, 9⟩]⟩ =
        .unauthorized) ∧
    (jsFalsy (some "x@y.com") = false →
      ∀ p st cpe, subscriptionGET (some "x@y.com")
          ⟨dbC9.users, [⟨"s2", "u1", "pro", "active", "cus", "sub_8", 9,
            9⟩]⟩ = .subInfo p st cpe →
        ∃ r ∈ (⟨dbC9.users, [⟨"s2", "u1", "pro", "active", "cus", "sub_8",
            9, 9⟩]⟩ : Db).subscriptions,
          activeSubFor ⟨dbC9.users, [⟨"s2", "u1", "pro", "active", "cus",
            "sub_8", 9, 9⟩]⟩ (some "x@y.com") r = true ∧
          r.plan = p ∧ r.status = st ∧ r.currentPeriodEnd = cpe ∧
          (st = "active" ∨ st = "trialing")) ∧
    (jsFalsy (some "x@y.com") = false →
      subscriptionGET (some "x@y.com")
        ⟨dbC9.users, [⟨"s2", "u1", "pro", "active", "cus", "sub_8", 9, 9⟩]⟩ =
        .freeNone →
      ∀ r ∈ (⟨dbC9.users, [⟨"s2", "u1", "pro", "active", "cus", "sub_8", 9,
          9⟩]⟩ : Db).subscriptions,
        activeSubFor ⟨dbC9.users, [⟨"s2", "u1", "pro", "active", "cus",
          "sub_8", 9, 9⟩]⟩ (some "x@y.com") r = false) ∧
    (jsFalsy (some "x@y.com") = false →
      (∃ r ∈ (⟨dbC9.users, [⟨"s2", "u1", "pro", "active", "cus", "sub_8",
          9, 9⟩]⟩ : Db).subscriptions,
        activeSubFor ⟨dbC9.users, [⟨"s2", "u1", "pro", "active", "cus",
          "sub_8", 9, 9⟩]⟩ (some "x@y.com") r = true) →
      ∃ p st cpe, subscriptionGET (some "x@y.com")
          ⟨dbC9.users, [⟨"s2", "u1", "pro", "active", "cus", "sub_8", 9,
            9⟩]⟩ = .subInfo p st cpe) :=
  subscription_read_contract (some "x@y.com")
    ⟨dbC9.users, [⟨"s2", "u1", "pro", "active", "cus", "sub_8", 9, 9⟩]⟩
